import Mathlib

/-!
Shallow embedding of the client-side workflow state machine of
"My Translator and Voiceover Generator" (src/App.tsx), together with the
gateway-call surface it uses (src/services/geminiService.ts is treated as an
external collaborator whose results are passed in as `Except` values).

The React component keeps its session in ten `useState` slots; here they are
the fields of `Session`.  Each async handler is split into a synchronous part
(everything up to the `await`, returning the updated session together with the
gateway operation it invokes, if any) and a resolve part (the `then`/`catch`
continuation applied to the gateway's result).  Full-flow compositions glue
the two for use in the reachability relation.
-/

namespace App

/-- Phase of the workflow state machine: the union type of the `step` state in
src/App.tsx line 14.  Spec names: idle = initial, capturing = transcribing,
captured = transcribed. -/
inductive Step where
  | initial
  | transcribing
  | transcribed
  | translating
  | translated
deriving Repr, DecidableEq

/-- Detected source language (name plus ISO 639-1 code), the shape stored by
`setDetectedLanguage` in src/App.tsx line 19. -/
structure DetectedLang where
  name : String
  code : String
deriving Repr, DecidableEq

/-- One translation entry, the `Translation` record built in
src/App.tsx lines 84-88: display name, language code, translated text, the
optional generated-audio URL and the per-item busy flag. -/
structure Translation where
  language : String
  languageCode : String
  text : String
  audioUrl : Option String
  isGeneratingAudio : Bool
deriving Repr, DecidableEq

/-- Result shape of the transcribe gateway operation
(src/services/geminiService.ts, `transcribeAudio`). -/
structure TranscriptionResult where
  transcript : String
  languageName : String
  languageCode : String
deriving Repr, DecidableEq

/-- The whole per-interaction session: the ten `useState` slots of the `App`
component (src/App.tsx lines 14-25). -/
structure Session where
  step : Step
  error : Option String
  loadingMessage : String
  originalTranscript : String
  detectedLanguage : Option DetectedLang
  selectedLanguages : List String
  translations : List Translation
  activeTab : Option String
  isEditingTranscript : Bool
  tempTranscript : String
deriving Repr, DecidableEq

/-- Initial values of the ten state slots (src/App.tsx lines 14-25). -/
def initialSession : Session :=
  { step := Step.initial
    error := none
    loadingMessage := ""
    originalTranscript := ""
    detectedLanguage := none
    selectedLanguages := []
    translations := []
    activeTab := none
    isEditingTranscript := false
    tempTranscript := "" }

/-- A record of which AI-gateway operation a handler invokes, with its
arguments (the four operations of src/services/geminiService.ts). -/
inductive GatewayCall where
  | detectLanguage (text : String)
  | transcribe (audioBase64 : String) (mimeType : String)
  | translate (text : String) (sourceLanguage : String) (targets : List String)
  | synthesizeVoice (text : String)
deriving Repr, DecidableEq

/-- Language entry of the static language catalogue.

Modelled from the spec: the repository's `constants.ts` (the `LANGUAGES`
list imported in src/App.tsx line 10) is not under src/; the spec only says
languages are a full name plus an ISO 639-1 code.  No claim depends on the
catalogue's contents, only on the lookup-or-fallback shape of
src/App.tsx line 85. -/
structure Language where
  name : String
  code : String
deriving Repr, DecidableEq

/-- Modelled from the spec: a representative language catalogue standing in
for the missing `constants.ts`; every entry is a (full name, ISO 639-1 code)
pair as the spec describes. -/
def LANGUAGES : List Language :=
  [⟨"English", "en"⟩, ⟨"Spanish", "es"⟩, ⟨"French", "fr"⟩,
   ⟨"Portuguese", "pt"⟩, ⟨"German", "de"⟩, ⟨"Italian", "it"⟩]

/-- The guard `!text.trim()` of src/App.tsx line 49: the trimmed text is the
empty string exactly when every character of the text is whitespace. -/
def isBlank (text : String) : Bool :=
  text.data.all Char.isWhitespace

/-- Synchronous part of `handleTextSubmit` (src/App.tsx lines 48-57): reject
blank text locally with a validation error and no gateway call; otherwise
enter the busy phase, clear the error and stale detected language, and invoke
the detect-language gateway operation. -/
def handleTextSubmitStart (s : Session) (text : String) :
    Session × Option GatewayCall :=
  if isBlank text then
    ({ s with error := some "Please enter some text to continue." }, none)
  else
    ({ s with step := Step.transcribing
              loadingMessage := "Detecting Language..."
              error := none
              detectedLanguage := none },
     some (GatewayCall.detectLanguage text))

/-- Continuation of `handleTextSubmit` on the gateway result
(src/App.tsx lines 58-67). -/
def handleTextSubmitResolve (s : Session) (text : String)
    (r : Except String DetectedLang) : Session :=
  match r with
  | Except.ok d =>
      { s with originalTranscript := text
               detectedLanguage := some d
               step := Step.transcribed }
  | Except.error msg =>
      { s with error := some ("Failed to detect language: " ++
                 (if msg = "" then "Unknown error" else msg))
               step := Step.initial }

/-- Full text-submission flow: the synchronous part followed, when a gateway
call was issued, by the resolve part applied to the gateway's result. -/
def handleTextSubmit (s : Session) (text : String)
    (r : Except String DetectedLang) : Session :=
  match handleTextSubmitStart s text with
  | (s1, none) => s1
  | (s1, some _) => handleTextSubmitResolve s1 text r

/-- Synchronous part of `handleAudioSubmit` (src/App.tsx lines 27-34): enter
the busy phase and invoke the transcribe gateway operation. -/
def handleAudioSubmitStart (s : Session) (audioBase64 : String)
    (mimeType : String) : Session × Option GatewayCall :=
  ({ s with step := Step.transcribing
            loadingMessage := "Transcribing audio..."
            error := none
            detectedLanguage := none },
   some (GatewayCall.transcribe audioBase64 mimeType))

/-- Continuation of `handleAudioSubmit` on the gateway result
(src/App.tsx lines 35-45). -/
def handleAudioSubmitResolve (s : Session)
    (r : Except String TranscriptionResult) : Session :=
  match r with
  | Except.ok t =>
      { s with originalTranscript := t.transcript
               detectedLanguage := some ⟨t.languageName, t.languageCode⟩
               step := Step.transcribed }
  | Except.error msg =>
      { s with error := some ("Failed to transcribe audio: " ++
                 (if msg = "" then "Unknown error occurred" else msg))
               step := Step.initial }

/-- Full audio-submission flow. -/
def handleAudioSubmit (s : Session) (audioBase64 : String) (mimeType : String)
    (r : Except String TranscriptionResult) : Session :=
  handleAudioSubmitResolve (handleAudioSubmitStart s audioBase64 mimeType).1 r

/-- Synchronous part of `handleTranslate` (src/App.tsx lines 70-81): the two
local validations (empty selection, missing detected language) set an error
without a gateway call; otherwise enter the busy phase and invoke the
translate gateway operation. -/
def handleTranslateStart (s : Session) : Session × Option GatewayCall :=
  if s.selectedLanguages.length = 0 then
    ({ s with error := some "Please select at least one language to translate." },
     none)
  else
    match s.detectedLanguage with
    | none =>
        ({ s with error := some "Could not detect the original language. Cannot translate." },
         none)
    | some d =>
        ({ s with step := Step.translating
                  loadingMessage := "Translating Text..."
                  error := none },
         some (GatewayCall.translate s.originalTranscript d.name
                 s.selectedLanguages))

/-- Construction of one `Translation` record from one `(languageCode, text)`
entry of the gateway's translation map (src/App.tsx lines 84-88): the display
name is looked up in the catalogue, falling back to the raw code. -/
def mkTranslation (entry : String × String) : Translation :=
  { language := (Option.map Language.name
       (LANGUAGES.find? (fun l => l.code = entry.1))).getD entry.1
    languageCode := entry.1
    text := entry.2
    audioUrl := none
    isGeneratingAudio := false }

/-- Active-tab choice from a fresh translation list (src/App.tsx line 90):
`newTranslations[0]?.languageCode || null`.  JavaScript's `||` also coerces
an empty-string language code to `null`. -/
def firstTab (ts : List Translation) : Option String :=
  match ts with
  | [] => none
  | t :: _ => if t.languageCode = "" then none else some t.languageCode

/-- Continuation of `handleTranslate` on the gateway result
(src/App.tsx lines 82-96).  The translation map is the entry list of the JSON
object the gateway returned, in response order. -/
def handleTranslateResolve (s : Session)
    (r : Except String (List (String × String))) : Session :=
  match r with
  | Except.ok entries =>
      let newTranslations := entries.map mkTranslation
      { s with translations := newTranslations
               activeTab := firstTab newTranslations
               step := Step.translated }
  | Except.error _ =>
      { s with error := some "Failed to translate text. Please try again."
               step := Step.transcribed }

/-- Full translate flow: validations, then resolve only when a gateway call
was issued. -/
def handleTranslate (s : Session)
    (r : Except String (List (String × String))) : Session :=
  match handleTranslateStart s with
  | (s1, none) => s1
  | (s1, some _) => handleTranslateResolve s1 r

/-- In-place update of the per-item busy flag for every entry with the given
language code (the two `setTranslations(prev => prev.map ...)` calls of
src/App.tsx lines 103 and 111). -/
def setGenerating (b : Bool) (code : String) (ts : List Translation) :
    List Translation :=
  ts.map (fun t =>
    if t.languageCode = code then { t with isGeneratingAudio := b } else t)

/-- Attachment of the synthesized audio URL, clearing the busy flag
(src/App.tsx line 107). -/
def attachAudio (code : String) (url : String) (ts : List Translation) :
    List Translation :=
  ts.map (fun t =>
    if t.languageCode = code then
      { t with audioUrl := some url, isGeneratingAudio := false }
    else t)

/-- Synchronous part of `handleGenerateVoiceover` (src/App.tsx lines 99-103):
a silent no-op when no translation carries the requested code; otherwise the
busy flag is raised immediately and the synthesize gateway operation is
invoked on the found entry's text. -/
def handleGenerateVoiceoverStart (s : Session) (code : String) :
    Session × Option GatewayCall :=
  match s.translations.find? (fun t => t.languageCode = code) with
  | none => (s, none)
  | some tr =>
      ({ s with translations := setGenerating true code s.translations },
       some (GatewayCall.synthesizeVoice tr.text))

/-- Continuation of `handleGenerateVoiceover` on the gateway result
(src/App.tsx lines 105-112).  `foundLanguage` is the display name of the
entry captured before the call, used in the failure message. -/
def handleGenerateVoiceoverResolve (s : Session) (code : String)
    (foundLanguage : String) (r : Except String String) : Session :=
  match r with
  | Except.ok url => { s with translations := attachAudio code url s.translations }
  | Except.error _ =>
      { s with error := some ("Failed to generate voiceover for " ++
                 foundLanguage ++ ".")
               translations := setGenerating false code s.translations }

/-- Full voiceover flow for one language code. -/
def handleGenerateVoiceover (s : Session) (code : String)
    (r : Except String String) : Session :=
  match s.translations.find? (fun t => t.languageCode = code) with
  | none => s
  | some tr =>
      handleGenerateVoiceoverResolve
        { s with translations := setGenerating true code s.translations }
        code tr.language r

/-- Session reset (src/App.tsx lines 115-124).  Note which slots the handler
touches: `loadingMessage` and `tempTranscript` are left as they are. -/
def handleReset (s : Session) : Session :=
  { s with step := Step.initial
           error := none
           originalTranscript := ""
           detectedLanguage := none
           selectedLanguages := []
           translations := []
           activeTab := none
           isEditingTranscript := false }

/-- Begin editing the transcript (src/App.tsx lines 126-129). -/
def handleEditTranscript (s : Session) : Session :=
  { s with tempTranscript := s.originalTranscript, isEditingTranscript := true }

/-- Cancel editing (src/App.tsx lines 131-133). -/
def handleCancelEdit (s : Session) : Session :=
  { s with isEditingTranscript := false }

/-- Save the edited transcript (src/App.tsx lines 135-143): replace the
transcript, leave edit mode, and when coming from `translated` also drop the
translations and the active tab and fall back to `transcribed`. -/
def handleSaveTranscript (s : Session) : Session :=
  let s1 := { s with originalTranscript := s.tempTranscript
                     isEditingTranscript := false }
  if s.step = Step.translated then
    { s1 with step := Step.transcribed, translations := [], activeTab := none }
  else s1

/-- Events of the workflow state machine, each carrying the user input and,
for the asynchronous operations, the gateway's eventual result. -/
inductive Event where
  | submitText (text : String) (r : Except String DetectedLang)
  | submitAudio (audioBase64 : String) (mimeType : String)
      (r : Except String TranscriptionResult)
  | selectLanguages (codes : List String)
  | translate (r : Except String (List (String × String)))
  | generateVoiceover (code : String) (r : Except String String)
  | editTranscript
  | setTempTranscript (text : String)
  | saveTranscript
  | cancelEdit
  | reset

/-- Availability of each event, read off the phases in which `renderContent`
and the surrounding markup actually render the triggering control
(src/App.tsx lines 146-249): capture input only at `initial`, the language
selector and translate button only at `transcribed`, the translation tabs
only at `translated`, the edit/save/cancel controls only at
`transcribed`/`translated` depending on edit mode, and the reset button
everywhere except `initial` and `transcribing`. -/
def enabled (s : Session) : Event → Prop
  | Event.submitText _ _ => s.step = Step.initial
  | Event.submitAudio _ _ _ => s.step = Step.initial
  | Event.selectLanguages _ => s.step = Step.transcribed
  | Event.translate _ => s.step = Step.transcribed
  | Event.generateVoiceover _ _ => s.step = Step.translated
  | Event.editTranscript =>
      (s.step = Step.transcribed ∨ s.step = Step.translated) ∧
        s.isEditingTranscript = false
  | Event.setTempTranscript _ =>
      (s.step = Step.transcribed ∨ s.step = Step.translated) ∧
        s.isEditingTranscript = true
  | Event.saveTranscript =>
      (s.step = Step.transcribed ∨ s.step = Step.translated) ∧
        s.isEditingTranscript = true
  | Event.cancelEdit =>
      (s.step = Step.transcribed ∨ s.step = Step.translated) ∧
        s.isEditingTranscript = true
  | Event.reset => s.step ≠ Step.initial ∧ s.step ≠ Step.transcribing

/-- Effect of each event on the session: the corresponding handler, with the
asynchronous ones run to completion (synchronous part, then the continuation
on the gateway result when a call was issued). -/
def applyEvent (s : Session) : Event → Session
  | Event.submitText text r => handleTextSubmit s text r
  | Event.submitAudio audio mime r => handleAudioSubmit s audio mime r
  | Event.selectLanguages codes => { s with selectedLanguages := codes }
  | Event.translate r => handleTranslate s r
  | Event.generateVoiceover code r => handleGenerateVoiceover s code r
  | Event.editTranscript => handleEditTranscript s
  | Event.setTempTranscript text => { s with tempTranscript := text }
  | Event.saveTranscript => handleSaveTranscript s
  | Event.cancelEdit => handleCancelEdit s
  | Event.reset => handleReset s

/-- One step of the state machine: some enabled event fires. -/
def stepRel (s s' : Session) : Prop :=
  ∃ e : Event, enabled s e ∧ applyEvent s e = s'

/-- Reachability by any sequence of enabled events with arbitrary gateway
results. -/
def Reachable (s s' : Session) : Prop :=
  Relation.ReflTransGen stepRel s s'

/-- Restriction on gateway behaviour: every successful translate result
carries at least one entry.  All other events are unrestricted. -/
def nonEmptyTranslateResults : Event → Prop
  | Event.translate (Except.ok entries) => entries ≠ []
  | _ => True

/-- One step whose gateway result satisfies `nonEmptyTranslateResults`. -/
def goodStepRel (s s' : Session) : Prop :=
  ∃ e : Event, enabled s e ∧ nonEmptyTranslateResults e ∧ applyEvent s e = s'

/-- Reachability when every successful translate result is non-empty. -/
def ReachableGood (s s' : Session) : Prop :=
  Relation.ReflTransGen goodStepRel s s'

/-- The session invariant of claim C6: the translation set is non-empty
exactly in phase `translated`, and the active tab, when set, names a code
present in the translation set. -/
def sessionInv (s : Session) : Prop :=
  (s.translations ≠ [] ↔ s.step = Step.translated) ∧
  (∀ c : String, s.activeTab = some c →
    c ∈ s.translations.map Translation.languageCode)

/-! Sample sessions used by the concrete witnesses. -/

/-- A session that has just captured the text "hola amigo" with Spanish
detected: the shape of the state after a successful text submission. -/
def capturedSession : Session :=
  { initialSession with
      step := Step.transcribed
      originalTranscript := "hola amigo"
      detectedLanguage := some ⟨"Spanish", "es"⟩ }

/-- The captured session with two target languages selected. -/
def readySession : Session :=
  { capturedSession with selectedLanguages := ["en", "fr"] }

/-- English translation entry used in witnesses. -/
def trEn : Translation := ⟨"English", "en", "Hello friend", none, false⟩

/-- French translation entry used in witnesses. -/
def trFr : Translation := ⟨"French", "fr", "Bonjour ami", none, false⟩

/-- A session holding two translations with the English tab active. -/
def translatedSession : Session :=
  { readySession with
      step := Step.translated
      translations := [trEn, trFr]
      activeTab := some "en" }

/-- C7: a non-blank text submitted from phase idle moves the session to the
busy capturing phase and issues the detect-language gateway call; when that
call succeeds the session reaches captured with the transcript equal to the
submitted text and the detected language taken from the gateway result. -/
theorem c7_text_submit_success (s : Session) (text : String) (d : DetectedLang)
    (hstep : s.step = Step.initial) (htext : isBlank text = false) :
    (handleTextSubmitStart s text).1.step = Step.transcribing ∧
    (handleTextSubmitStart s text).2 = some (GatewayCall.detectLanguage text) ∧
    (handleTextSubmit s text (Except.ok d)).step = Step.transcribed ∧
    (handleTextSubmit s text (Except.ok d)).originalTranscript = text ∧
    (handleTextSubmit s text (Except.ok d)).detectedLanguage = some d := by
  simp [handleTextSubmit, handleTextSubmitStart, handleTextSubmitResolve, htext]

/-- Witness for C7 at the concrete input "Hola amigo" from the initial
session, with the gateway detecting Spanish. -/
theorem c7_witness :
    (handleTextSubmitStart initialSession "Hola amigo").1.step = Step.transcribing ∧
    (handleTextSubmitStart initialSession "Hola amigo").2 =
      some (GatewayCall.detectLanguage "Hola amigo") ∧
    (handleTextSubmit initialSession "Hola amigo"
        (Except.ok ⟨"Spanish", "es"⟩)).step = Step.transcribed ∧
    (handleTextSubmit initialSession "Hola amigo"
        (Except.ok ⟨"Spanish", "es"⟩)).originalTranscript = "Hola amigo" ∧
    (handleTextSubmit initialSession "Hola amigo"
        (Except.ok ⟨"Spanish", "es"⟩)).detectedLanguage =
      some ⟨"Spanish", "es"⟩ :=
  c7_text_submit_success initialSession "Hola amigo" ⟨"Spanish", "es"⟩ rfl
    (by decide)

/-- C8: a blank (empty or whitespace-only) text submission only sets the
validation error message — the returned session differs from the input in the
error slot alone, the phase stays idle, and no gateway operation is
invoked. -/
theorem c8_blank_text_rejected (s : Session) (text : String)
    (hstep : s.step = Step.initial) (htext : isBlank text = true) :
    handleTextSubmitStart s text =
      ({ s with error := some "Please enter some text to continue." }, none) ∧
    (handleTextSubmitStart s text).1.step = Step.initial := by
  refine ⟨?_, ?_⟩ <;> simp [handleTextSubmitStart, htext, hstep]

/-- Witness for C8 at the whitespace-only input made of three spaces. -/
theorem c8_witness :
    handleTextSubmitStart initialSession "   " =
      ({ initialSession with
           error := some "Please enter some text to continue." }, none) ∧
    (handleTextSubmitStart initialSession "   ").1.step = Step.initial :=
  c8_blank_text_rejected initialSession "   " rfl (by decide)

/-- C9: requesting translation with an empty language selection, or without a
detected source language, sets the corresponding validation message, invokes
no gateway operation, and returns the session otherwise unchanged, still in
phase captured. -/
theorem c9_translate_validation (s : Session)
    (hstep : s.step = Step.transcribed)
    (hbad : s.selectedLanguages = [] ∨ s.detectedLanguage = none) :
    (handleTranslateStart s).2 = none ∧
    (handleTranslateStart s).1 =
      { s with error := some (if s.selectedLanguages = [] then
            "Please select at least one language to translate."
          else "Could not detect the original language. Cannot translate.") } ∧
    (handleTranslateStart s).1.step = Step.transcribed := by
  by_cases hsel : s.selectedLanguages = []
  · refine ⟨?_, ?_, ?_⟩ <;> simp [handleTranslateStart, hsel, hstep]
  · have hdet : s.detectedLanguage = none := hbad.resolve_left hsel
    refine ⟨?_, ?_, ?_⟩ <;>
      simp [handleTranslateStart, List.length_eq_zero, hsel, hdet, hstep]

/-- Witness for C9 at a captured session with nothing selected and no
detected language. -/
theorem c9_witness :
    (handleTranslateStart { initialSession with step := Step.transcribed }).2 =
      none ∧
    (handleTranslateStart { initialSession with step := Step.transcribed }).1 =
      { { initialSession with step := Step.transcribed } with
          error := some (if ({ initialSession with
              step := Step.transcribed } : Session).selectedLanguages = [] then
            "Please select at least one language to translate."
          else "Could not detect the original language. Cannot translate.") } ∧
    (handleTranslateStart
        { initialSession with step := Step.transcribed }).1.step =
      Step.transcribed :=
  c9_translate_validation { initialSession with step := Step.transcribed } rfl
    (Or.inl rfl)

/-- C2: when the translate gateway call fails, the attempt started from a
captured session passes through the busy translating phase, falls back to
captured with the session-level error message set, and the transcript and
detected language are exactly what they were before the attempt. -/
theorem c2_translate_failure_rollback (s : Session) (d : DetectedLang)
    (e : String)
    (hstep : s.step = Step.transcribed)
    (hsel : s.selectedLanguages ≠ [])
    (hdet : s.detectedLanguage = some d) :
    (handleTranslateStart s).1.step = Step.translating ∧
    (handleTranslate s (Except.error e)).step = Step.transcribed ∧
    (handleTranslate s (Except.error e)).error =
      some "Failed to translate text. Please try again." ∧
    (handleTranslate s (Except.error e)).originalTranscript =
      s.originalTranscript ∧
    (handleTranslate s (Except.error e)).detectedLanguage =
      s.detectedLanguage := by
  refine ⟨?_, ?_, ?_, ?_, ?_⟩ <;>
    simp [handleTranslate, handleTranslateStart, handleTranslateResolve,
      List.length_eq_zero, hsel, hdet]

/-- Witness for C2 at the ready session with a failing gateway. -/
theorem c2_witness :
    (handleTranslateStart readySession).1.step = Step.translating ∧
    (handleTranslate readySession (Except.error "network down")).step =
      Step.transcribed ∧
    (handleTranslate readySession (Except.error "network down")).error =
      some "Failed to translate text. Please try again." ∧
    (handleTranslate readySession
        (Except.error "network down")).originalTranscript =
      readySession.originalTranscript ∧
    (handleTranslate readySession
        (Except.error "network down")).detectedLanguage =
      readySession.detectedLanguage :=
  c2_translate_failure_rollback readySession ⟨"Spanish", "es"⟩ "network down"
    rfl (by decide) rfl

/-- C3: saving an edited transcript from phase translated replaces the
transcript with the edit buffer, leaves edit mode, empties the translation
set, clears the active tab and moves to captured; saving from phase captured
replaces the transcript and leaves edit mode, changing nothing else. -/
theorem c3_save_transcript (s : Session) :
    (s.step = Step.translated →
      handleSaveTranscript s =
        { s with originalTranscript := s.tempTranscript
                 isEditingTranscript := false
                 step := Step.transcribed
                 translations := []
                 activeTab := none }) ∧
    (s.step = Step.transcribed →
      handleSaveTranscript s =
        { s with originalTranscript := s.tempTranscript
                 isEditingTranscript := false }) := by
  constructor <;> intro h <;> simp [handleSaveTranscript, h]

/-- Witness for C3 at the translated sample session and at the captured
sample session, both carrying a pending edit. -/
theorem c3_witness :
    handleSaveTranscript
        { translatedSession with
            isEditingTranscript := true, tempTranscript := "adios" } =
      { translatedSession with
          originalTranscript := "adios"
          isEditingTranscript := false
          tempTranscript := "adios"
          step := Step.transcribed
          translations := []
          activeTab := none } ∧
    handleSaveTranscript
        { capturedSession with
            isEditingTranscript := true, tempTranscript := "adios" } =
      { capturedSession with
          originalTranscript := "adios"
          isEditingTranscript := false
          tempTranscript := "adios" } :=
  ⟨(c3_save_transcript _).1 rfl, (c3_save_transcript _).2 rfl⟩

/-- C10: requesting a voiceover for a language code carried by no current
translation is a silent no-op — no gateway call is issued and the session is
returned untouched, whatever the gateway would have answered. -/
theorem c10_voiceover_absent_code_noop (s : Session) (code : String)
    (r : Except String String)
    (habsent : code ∉ s.translations.map Translation.languageCode) :
    handleGenerateVoiceoverStart s code = (s, none) ∧
    handleGenerateVoiceover s code r = s := by
  have hfind : s.translations.find? (fun t => t.languageCode = code) = none := by
    rw [List.find?_eq_none]
    intro t ht
    simp only [decide_eq_true_eq]
    intro heq
    exact habsent (heq ▸ List.mem_map_of_mem Translation.languageCode ht)
  constructor
  · simp [handleGenerateVoiceoverStart, hfind]
  · simp [handleGenerateVoiceover, hfind]

/-- Witness for C10: asking for a German voiceover while only English and
French translations exist changes nothing and calls nothing. -/
theorem c10_witness :
    handleGenerateVoiceoverStart translatedSession "de" =
      (translatedSession, none) ∧
    handleGenerateVoiceover translatedSession "de" (Except.ok "blob:1") =
      translatedSession :=
  c10_voiceover_absent_code_noop translatedSession "de" (Except.ok "blob:1")
    (by decide)

/-- Fusing the busy-flag map with the audio-attachment map that follows it on
success gives a single per-entry update. -/
lemma attachAudio_setGenerating (code url : String) (ts : List Translation) :
    attachAudio code url (setGenerating true code ts) =
      ts.map (fun t =>
        if t.languageCode = code then
          { t with audioUrl := some url, isGeneratingAudio := false }
        else t) := by
  simp only [attachAudio, setGenerating, List.map_map]
  refine List.map_congr_left (fun t _ => ?_)
  by_cases h : t.languageCode = code <;> simp [h]

/-- Fusing the busy-flag map with the flag-clearing map that follows it on
failure gives a single per-entry update. -/
lemma setGenerating_false_setGenerating_true (code : String)
    (ts : List Translation) :
    setGenerating false code (setGenerating true code ts) =
      ts.map (fun t =>
        if t.languageCode = code then { t with isGeneratingAudio := false }
        else t) := by
  simp only [setGenerating, List.map_map]
  refine List.map_congr_left (fun t _ => ?_)
  by_cases h : t.languageCode = code <;> simp [h]

/-- C5: for a translation set carrying the requested language code (with
codes pairwise distinct, as the translate operation produces them), the
voiceover request immediately raises exactly that entry's busy flag; on
success the entry gets the audio reference and its flag back to false; on
failure only the flag is cleared and the session error names that entry's
language — in every case all entries with a different code, the phase and
(except for the failure message) the error slot are unchanged. -/
theorem c5_voiceover_per_item (s : Session) (code : String) (tr : Translation)
    (url : String) (msg : String)
    (hfind : s.translations.find? (fun t => t.languageCode = code) = some tr)
    (hnodup : (s.translations.map Translation.languageCode).Nodup) :
    ((handleGenerateVoiceoverStart s code).1.step = s.step ∧
     (handleGenerateVoiceoverStart s code).1.error = s.error ∧
     (handleGenerateVoiceoverStart s code).1.translations =
       s.translations.map (fun t =>
         if t.languageCode = code then { t with isGeneratingAudio := true }
         else t)) ∧
    ((handleGenerateVoiceover s code (Except.ok url)).step = s.step ∧
     (handleGenerateVoiceover s code (Except.ok url)).error = s.error ∧
     (handleGenerateVoiceover s code (Except.ok url)).translations =
       s.translations.map (fun t =>
         if t.languageCode = code then
           { t with audioUrl := some url, isGeneratingAudio := false }
         else t)) ∧
    ((handleGenerateVoiceover s code (Except.error msg)).step = s.step ∧
     (handleGenerateVoiceover s code (Except.error msg)).error =
       some ("Failed to generate voiceover for " ++ tr.language ++ ".") ∧
     (handleGenerateVoiceover s code (Except.error msg)).translations =
       s.translations.map (fun t =>
         if t.languageCode = code then { t with isGeneratingAudio := false }
         else t)) := by
  have hstart : (handleGenerateVoiceoverStart s code).1 =
      { s with translations := setGenerating true code s.translations } := by
    simp [handleGenerateVoiceoverStart, hfind]
  have hok : handleGenerateVoiceover s code (Except.ok url) =
      { s with translations :=
          attachAudio code url (setGenerating true code s.translations) } := by
    simp [handleGenerateVoiceover, handleGenerateVoiceoverResolve, hfind]
  have herr : handleGenerateVoiceover s code (Except.error msg) =
      { s with error := some ("Failed to generate voiceover for " ++
                 tr.language ++ ".")
               translations :=
          setGenerating false code (setGenerating true code s.translations) } := by
    simp [handleGenerateVoiceover, handleGenerateVoiceoverResolve, hfind]
  refine ⟨⟨?_, ?_, ?_⟩, ⟨?_, ?_, ?_⟩, ⟨?_, ?_, ?_⟩⟩
  · rw [hstart]
  · rw [hstart]
  · rw [hstart]; rfl
  · rw [hok]
  · rw [hok]
  · rw [hok]; exact attachAudio_setGenerating code url s.translations
  · rw [herr]
  · rw [herr]
  · rw [herr]; exact setGenerating_false_setGenerating_true code s.translations

/-- Witness for C5: voiceover for the English entry of the two-translation
session, on both a successful and a failing synthesis call. -/
theorem c5_witness :
    ((handleGenerateVoiceoverStart translatedSession "en").1.translations =
       [{ trEn with isGeneratingAudio := true }, trFr]) ∧
    ((handleGenerateVoiceover translatedSession "en"
        (Except.ok "blob:audio-1")).translations =
       [{ trEn with audioUrl := some "blob:audio-1",
                    isGeneratingAudio := false }, trFr]) ∧
    ((handleGenerateVoiceover translatedSession "en"
        (Except.error "boom")).error =
       some "Failed to generate voiceover for English.") ∧
    ((handleGenerateVoiceover translatedSession "en"
        (Except.error "boom")).translations = [trEn, trFr]) := by
  have h := c5_voiceover_per_item translatedSession "en" trEn "blob:audio-1"
    "boom" (by decide) (by decide)
  exact ⟨h.1.2.2.trans (by decide), h.2.1.2.2.trans (by decide),
    h.2.2.2.1, h.2.2.2.2.trans (by decide)⟩

/-- Counterexample to C1 as stated: with one selected target and a gateway
mapping of exactly one entry whose language code is the empty string, the
produced translation entry does carry that code and text, but the active tab
pointer becomes null rather than the first entry's language code, because
`newTranslations[0]?.languageCode || null` coerces the empty string to null
(src/App.tsx line 90). -/
theorem c1_counterexample :
    (handleTranslate { capturedSession with selectedLanguages := ["en"] }
        (Except.ok [("", "hello")])).translations.map
        (fun t => (t.languageCode, t.text)) = [("", "hello")] ∧
    (handleTranslate { capturedSession with selectedLanguages := ["en"] }
        (Except.ok [("", "hello")])).step = Step.translated ∧
    (handleTranslate { capturedSession with selectedLanguages := ["en"] }
        (Except.ok [("", "hello")])).activeTab = none := by
  refine ⟨?_, ?_, ?_⟩ <;> decide

/-- C1 as amended: from a captured session with a non-empty selection and a
detected language, a successful translate producing a list of entries yields
exactly those entries as translations, in gateway-response order with
matching codes and texts, length equal to the number of selected target
codes, phase translated, and the active tab set to the first entry's language
code — unless that code is the empty string, in which case the pointer is
cleared. -/
theorem c1_translate_success (s : Session) (d : DetectedLang)
    (entries : List (String × String))
    (hstep : s.step = Step.transcribed)
    (hsel : s.selectedLanguages ≠ [])
    (hdet : s.detectedLanguage = some d)
    (hlen : entries.length = s.selectedLanguages.length) :
    (handleTranslate s (Except.ok entries)).translations.map
        (fun t => (t.languageCode, t.text)) = entries ∧
    (handleTranslate s (Except.ok entries)).translations.length =
      s.selectedLanguages.length ∧
    (handleTranslate s (Except.ok entries)).step = Step.translated ∧
    (handleTranslate s (Except.ok entries)).activeTab =
      entries.head?.bind
        (fun p => if p.1 = "" then none else some p.1) := by
  have happ : handleTranslate s (Except.ok entries) =
      handleTranslateResolve
        { s with step := Step.translating
                 loadingMessage := "Translating Text..."
                 error := none } (Except.ok entries) := by
    simp [handleTranslate, handleTranslateStart, List.length_eq_zero, hsel,
      hdet]
  refine ⟨?_, ?_, ?_, ?_⟩ <;> rw [happ] <;>
    simp only [handleTranslateResolve, List.map_map]
  · exact (List.map_congr_left (fun p _ => rfl)).trans (List.map_id entries)
  · simp [hlen]
  · cases entries with
    | nil => rfl
    | cons p ps => rfl

/-- Witness for the amended C1: the end-to-end scenario of the spec — the
ready session with targets ["en", "fr"] and a gateway answering those two
codes — yields the two entries in order with the English tab active. -/
theorem c1_witness :
    (handleTranslate readySession
        (Except.ok [("en", "Hello friend"), ("fr", "Bonjour ami")])).translations.map
        (fun t => (t.languageCode, t.text)) =
      [("en", "Hello friend"), ("fr", "Bonjour ami")] ∧
    (handleTranslate readySession
        (Except.ok [("en", "Hello friend"), ("fr", "Bonjour ami")])).translations.length =
      readySession.selectedLanguages.length ∧
    (handleTranslate readySession
        (Except.ok [("en", "Hello friend"), ("fr", "Bonjour ami")])).step =
      Step.translated ∧
    (handleTranslate readySession
        (Except.ok [("en", "Hello friend"), ("fr", "Bonjour ami")])).activeTab =
      some "en" := by
  have h := c1_translate_success readySession ⟨"Spanish", "es"⟩
    [("en", "Hello friend"), ("fr", "Bonjour ami")] rfl (by decide) rfl rfl
  exact ⟨h.1, h.2.1, h.2.2.1, h.2.2.2.trans (by decide)⟩

/-- Counterexample to C4 as stated: the reset handler does not write the
loading-label slot (src/App.tsx lines 115-124), so a reset taken from a
session whose loading label is non-empty leaves it non-empty instead of
returning it to its initial empty value. -/
theorem c4_counterexample :
    (handleReset { capturedSession with
        loadingMessage := "Translating Text..." }).loadingMessage ≠ "" := by
  decide

/-- C4 as amended: reset returns the phase, error, transcript, detected
language, language selection, translation set, active tab pointer and the
editing flag to their initial values (phase idle); the loading label and the
temporary transcript edit buffer keep whatever values they had. -/
theorem c4_reset (s : Session) :
    handleReset s =
      { initialSession with
          loadingMessage := s.loadingMessage
          tempTranscript := s.tempTranscript } :=
  rfl

/-- The busy-flag update leaves every entry's language code in place. -/
lemma codes_setGenerating (b : Bool) (code : String) (ts : List Translation) :
    (setGenerating b code ts).map Translation.languageCode =
      ts.map Translation.languageCode := by
  simp only [setGenerating, List.map_map]
  refine List.map_congr_left (fun t _ => ?_)
  by_cases h : t.languageCode = code <;> simp [h]

/-- The audio-attachment update leaves every entry's language code in
place. -/
lemma codes_attachAudio (code url : String) (ts : List Translation) :
    (attachAudio code url ts).map Translation.languageCode =
      ts.map Translation.languageCode := by
  simp only [attachAudio, List.map_map]
  refine List.map_congr_left (fun t _ => ?_)
  by_cases h : t.languageCode = code <;> simp [h]

/-- Under the invariant, any session not in phase translated holds no
translations. -/
lemma translations_eq_nil_of_not_translated (s : Session)
    (hinv : sessionInv s) (h : s.step ≠ Step.translated) :
    s.translations = [] := by
  by_contra hne
  exact h (hinv.1.mp hne)

/-- The invariant transfers to any session with the same translations and
active tab whose phase is translated exactly when the original's is. -/
lemma sessionInv_same_data (s' s : Session)
    (ht : s'.translations = s.translations)
    (ha : s'.activeTab = s.activeTab)
    (hstep : (s'.step = Step.translated) ↔ (s.step = Step.translated))
    (hinv : sessionInv s) : sessionInv s' := by
  constructor
  · rw [ne_eq, ht, hstep]
    exact hinv.1
  · intro c hc
    rw [ht]
    exact hinv.2 c (ha ▸ hc)

/-- The initial session satisfies the invariant. -/
lemma sessionInv_init : sessionInv initialSession := by
  refine ⟨?_, ?_⟩ <;> simp [initialSession, sessionInv]

/-- One enabled event whose translate result (if any, and successful) is
non-empty preserves the session invariant. -/
lemma sessionInv_preserved (s : Session) (e : Event) (he : enabled s e)
    (hg : nonEmptyTranslateResults e) (hinv : sessionInv s) :
    sessionInv (applyEvent s e) := by
  cases e with
  | submitText text r =>
      have he' : s.step = Step.initial := he
      refine sessionInv_same_data _ s ?_ ?_ ?_ hinv <;>
        cases hb : isBlank text <;> cases r <;>
          simp [applyEvent, handleTextSubmit, handleTextSubmitStart,
            handleTextSubmitResolve, hb, he']
  | submitAudio audio mime r =>
      have he' : s.step = Step.initial := he
      refine sessionInv_same_data _ s ?_ ?_ ?_ hinv <;> cases r <;>
        simp [applyEvent, handleAudioSubmit, handleAudioSubmitStart,
          handleAudioSubmitResolve, he']
  | selectLanguages codes =>
      exact sessionInv_same_data _ s rfl rfl Iff.rfl hinv
  | translate r =>
      have he' : s.step = Step.transcribed := he
      by_cases hsel : s.selectedLanguages.length = 0
      · refine sessionInv_same_data _ s ?_ ?_ ?_ hinv <;>
          simp [applyEvent, handleTranslate, handleTranslateStart, hsel, he']
      · cases hdet : s.detectedLanguage with
        | none =>
            refine sessionInv_same_data _ s ?_ ?_ ?_ hinv <;>
              simp [applyEvent, handleTranslate, handleTranslateStart, hsel,
                hdet, he']
        | some d =>
            cases r with
            | error msg =>
                refine sessionInv_same_data _ s ?_ ?_ ?_ hinv <;>
                  simp [applyEvent, handleTranslate, handleTranslateStart,
                    handleTranslateResolve, hsel, hdet, he']
            | ok entries =>
                have hg' : entries ≠ [] := hg
                have happ :
                    applyEvent s (Event.translate (Except.ok entries)) =
                      handleTranslateResolve
                        { s with step := Step.translating
                                 loadingMessage := "Translating Text..."
                                 error := none } (Except.ok entries) := by
                  simp [applyEvent, handleTranslate, handleTranslateStart,
                    hsel, hdet]
                rw [happ]
                simp only [handleTranslateResolve]
                constructor
                · simp [List.map_eq_nil_iff, hg']
                · intro c hc
                  cases entries with
                  | nil => exact absurd rfl hg'
                  | cons p ps =>
                      by_cases hz : p.1 = ""
                      · simp [firstTab, mkTranslation, hz] at hc
                      · simp [firstTab, mkTranslation, hz] at hc
                        simp [mkTranslation, hc]
  | generateVoiceover code r =>
      cases hf : s.translations.find? (fun t => t.languageCode = code) with
      | none =>
          have happ : applyEvent s (Event.generateVoiceover code r) = s := by
            simp [applyEvent, handleGenerateVoiceover, hf]
          rw [happ]
          exact hinv
      | some tr =>
          have hcodes :
              (applyEvent s
                  (Event.generateVoiceover code r)).translations.map
                  Translation.languageCode =
                s.translations.map Translation.languageCode := by
            cases r <;> simp [applyEvent, handleGenerateVoiceover,
              handleGenerateVoiceoverResolve, hf, codes_attachAudio,
              codes_setGenerating]
          have hstep' :
              (applyEvent s (Event.generateVoiceover code r)).step = s.step := by
            cases r <;> simp [applyEvent, handleGenerateVoiceover,
              handleGenerateVoiceoverResolve, hf]
          have ha :
              (applyEvent s (Event.generateVoiceover code r)).activeTab =
                s.activeTab := by
            cases r <;> simp [applyEvent, handleGenerateVoiceover,
              handleGenerateVoiceoverResolve, hf]
          have hemp :
              ((applyEvent s (Event.generateVoiceover code r)).translations
                  = []) ↔ (s.translations = []) := by
            cases r <;> simp [applyEvent, handleGenerateVoiceover,
              handleGenerateVoiceoverResolve, hf, attachAudio, setGenerating,
              List.map_eq_nil_iff]
          constructor
          · rw [ne_eq, hemp, hstep']
            exact hinv.1
          · intro c hc
            rw [hcodes]
            exact hinv.2 c (ha ▸ hc)
  | editTranscript => exact sessionInv_same_data _ s rfl rfl Iff.rfl hinv
  | setTempTranscript text =>
      exact sessionInv_same_data _ s rfl rfl Iff.rfl hinv
  | saveTranscript =>
      by_cases hst : s.step = Step.translated
      · have happ : applyEvent s Event.saveTranscript =
            { s with originalTranscript := s.tempTranscript
                     isEditingTranscript := false
                     step := Step.transcribed
                     translations := []
                     activeTab := none } := by
          simp [applyEvent, handleSaveTranscript, hst]
        rw [happ]
        refine ⟨by simp, ?_⟩
        intro c hc
        simp at hc
      · have happ : applyEvent s Event.saveTranscript =
            { s with originalTranscript := s.tempTranscript
                     isEditingTranscript := false } := by
          simp [applyEvent, handleSaveTranscript, hst]
        rw [happ]
        exact sessionInv_same_data _ s rfl rfl Iff.rfl hinv
  | cancelEdit => exact sessionInv_same_data _ s rfl rfl Iff.rfl hinv
  | reset =>
      refine ⟨by simp [applyEvent, handleReset], ?_⟩
      intro c hc
      simp [applyEvent, handleReset] at hc

/-- First reachable state of the C6 counterexample run: the text "hola" is
submitted and Spanish is detected. -/
def c6s1 : Session :=
  applyEvent initialSession
    (Event.submitText "hola" (Except.ok ⟨"Spanish", "es"⟩))

/-- Second reachable state of the C6 counterexample run: English is selected
as the only target. -/
def c6s2 : Session := applyEvent c6s1 (Event.selectLanguages ["en"])

/-- Third reachable state of the C6 counterexample run: the translate gateway
call succeeds but returns an empty mapping. -/
def c6s3 : Session := applyEvent c6s2 (Event.translate (Except.ok []))

/-- Counterexample to C6 as stated: with arbitrary gateway results the
invariant is not maintained — a successful translate call whose mapping is
empty produces a reachable state in phase translated whose translation set is
empty (src/App.tsx lines 82-91 store the entries unconditionally and still
move to `translated`). -/
theorem c6_counterexample : Reachable initialSession c6s3 ∧ ¬ sessionInv c6s3 := by
  constructor
  · have h1 : stepRel initialSession c6s1 :=
      ⟨Event.submitText "hola" (Except.ok ⟨"Spanish", "es"⟩), rfl, rfl⟩
    have h2 : stepRel c6s1 c6s2 :=
      ⟨Event.selectLanguages ["en"],
        (by decide : c6s1.step = Step.transcribed), rfl⟩
    have h3 : stepRel c6s2 c6s3 :=
      ⟨Event.translate (Except.ok []),
        (by decide : c6s2.step = Step.transcribed), rfl⟩
    exact ((Relation.ReflTransGen.single h1).tail h2).tail h3
  · intro h
    exact (h.1.mpr (by decide)) (by decide)

/-- C6 as amended: in every state reachable from the initial session by
enabled events, provided every successful translate gateway result carries at
least one entry, the translation set is non-empty exactly in phase translated
and the active tab, when set, names a language code of a current
translation. -/
theorem c6_session_invariant (s : Session)
    (h : ReachableGood initialSession s) : sessionInv s := by
  induction h with
  | refl => exact sessionInv_init
  | tail hab hbc ih =>
      obtain ⟨e, he, hg, heq⟩ := hbc
      rw [← heq]
      exact sessionInv_preserved _ e he hg ih

/-- Witness for the amended C6 at the state reached by one successful text
submission. -/
theorem c6_witness :
    sessionInv (applyEvent initialSession
      (Event.submitText "Hola amigo" (Except.ok ⟨"Spanish", "es"⟩))) :=
  c6_session_invariant _
    (Relation.ReflTransGen.single
      ⟨Event.submitText "Hola amigo" (Except.ok ⟨"Spanish", "es"⟩), rfl,
        trivial, rfl⟩)

end App
